import Mathlib

/-!
# Verification of `download_images.py` (MSP_MyWaze batch image fetcher)

Shallow embedding of the batch image-download script.  The script holds a
static catalog of car brands/models, and for each model queries the SerpAPI
image-search endpoint, extracts the first result's thumbnail URL, and
downloads the image to the model's configured path.

The external world (HTTP responses for the search and download GETs, and
filesystem write failures) is modelled by an `Env` oracle.  The observable
behaviour of a run is a trace of `Event`s (directory creation, printed
lines, file writes) plus the final file-system state.
-/

set_option autoImplicit false

namespace DownloadImages

/-- A model entry of the static catalog: `{"name": ..., "releaseYear": ...,
"image": ...}` in `car_database`. -/
structure CarModel where
  name : String
  releaseYear : Int
  image : String
deriving DecidableEq, Repr

/-- A brand entry of the static catalog: `{"brand": ..., "models": [...]}`. -/
structure CarBrand where
  brand : String
  models : List CarModel
deriving DecidableEq, Repr

/-- An element of the `images_results` array of a search response; its
`thumbnail` key may be absent (`.get("thumbnail")` then yields `None`). -/
structure ImageResult where
  thumbnail : Option String
deriving DecidableEq, Repr

/-- The parsed JSON body of a search response; the `images_results` key may be
absent (`.get("images_results", [])` then yields `[]`). -/
structure SearchData where
  images_results : Option (List ImageResult)
deriving DecidableEq, Repr

/-- Outcome of the search GET in `fetch_image_url`: either `requests.get`
raises (`.error msg`), or it returns a status code together with the result of
`response.json()` (which itself may raise on a malformed body). -/
abbrev SearchResp := Except String (Nat × Except String SearchData)

/-- Outcome of the download GET in `download_image`: either `requests.get`
raises (`.error msg`), or it returns a status code and the response body as a
byte sequence. -/
abbrev ImageResp := Except String (Nat × List Nat)

/-- The external world: the search endpoint's response per request URL, the
image host's response per image URL, and whether opening/writing a given file
path raises a filesystem error. -/
structure Env where
  search : String → SearchResp
  image : String → ImageResp
  fsErr : String → Option String

/-- Filesystem state: each path maps to the bytes of the file stored there,
or `none` when no file exists at that path. -/
abbrev FileSys := String → Option (List Nat)

/-- The empty filesystem. -/
def emptyFs : FileSys := fun _ => none

/-- Observable events of a run: `os.makedirs`, `print`ed lines, and file
writes (path together with the full bytes written). -/
inductive Event where
  | mkdir (dir : String)
  | print (line : String)
  | write (path : String) (content : List Nat)
deriving DecidableEq, Repr

/-- `image_dir = "src/assets/car_images"` (line 302). -/
def image_dir : String := "src/assets/car_images"

/-- The hardcoded SerpAPI key (line 336). -/
def SERPAPI_KEY : String :=
  "8fd8e4fcce08f42d093496b0faf0377d27a15f18a84caf1f23f0be36976e3cb0"

/-- `response.iter_content(1024)`: the response body split into successive
chunks of at most 1024 bytes (all but the last exactly 1024). -/
def iterContent (l : List Nat) : List (List Nat) :=
  if h : l = [] then []
  else l.take 1024 :: iterContent (l.drop 1024)
termination_by l.length
decreasing_by
  simp only [List.length_drop]
  exact Nat.sub_lt (List.length_pos.mpr h) (by decide)

/-- `download_image(url, path)` (lines 306–317).  Performs the download GET;
on status 200 opens `path` for binary write (truncating) and writes the body
chunk by chunk, printing `Downloaded: {path}`; on any other status prints
`Failed to download {url}: {status}`; any exception (transport or filesystem)
is caught and printed as `Error downloading {url}: {e}`.  Returns the updated
filesystem and the events emitted. -/
def download_image (url path : String) (env : Env) (fs : FileSys) :
    FileSys × List Event :=
  match env.image url with
  | .error e => (fs, [.print s!"Error downloading {url}: {e}"])
  | .ok (status, body) =>
    if status = 200 then
      match env.fsErr path with
      | some e => (fs, [.print s!"Error downloading {url}: {e}"])
      | none =>
        let content := (iterContent body).foldl (fun acc c => acc ++ c) []
        (fun p => if p = path then some content else fs p,
         [.write path content, .print s!"Downloaded: {path}"])
    else (fs, [.print s!"Failed to download {url}: {status}"])

/-- The search request URL built in `fetch_image_url` (lines 322–323):
`f"https://serpapi.com/search.json?q={brand} {model}&engine=google_images&ijn=0&api_key={api_key}"`.
No normalization or escaping is applied. -/
def queryUrl (brand model api_key : String) : String :=
  "https://serpapi.com/search.json?q=" ++ (brand ++ " " ++ model) ++
    "&engine=google_images&ijn=0&api_key=" ++ api_key

/-- `fetch_image_url(brand, model, api_key)` (lines 320–333).  Issues the
search GET; on status 200 parses the body, reads `images_results` (default
`[]`); if non-empty returns the first entry's `thumbnail` (no print); if the
list is empty, or the status is not 200, prints `No image found for {brand}
{model}`; any exception is caught and printed.  Returns the resolved URL
(`None` unless a non-empty result list was found) and the events emitted. -/
def fetch_image_url (brand model api_key : String) (env : Env) :
    Option String × List Event :=
  let url := queryUrl brand model api_key
  match env.search url with
  | .error e =>
      (none, [.print s!"Error fetching image URL for {brand} {model}: {e}"])
  | .ok (status, parsed) =>
    if status = 200 then
      match parsed with
      | .error e =>
          (none, [.print s!"Error fetching image URL for {brand} {model}: {e}"])
      | .ok data =>
        match data.images_results.getD [] with
        | [] => (none, [.print s!"No image found for {brand} {model}"])
        | r :: _ => (r.thumbnail, [])
    else (none, [.print s!"No image found for {brand} {model}"])

/-- Python truthiness of the resolved URL, as tested by `if image_url:` in the
main loop (line 345): `None` and the empty string are falsy. -/
def pyTruthy : Option String → Bool
  | none => false
  | some s => !s.isEmpty

/-- One iteration of the main loop (lines 340–346) for a single model:
fetch the image URL; if it is truthy, download it to the model's path. -/
def processModel (env : Env) (brandName : String) (m : CarModel)
    (fs : FileSys) : FileSys × List Event :=
  let fr := fetch_image_url brandName m.name SERPAPI_KEY env
  if pyTruthy fr.1 then
    let dl := download_image (fr.1.getD "") m.image env fs
    (dl.1, fr.2 ++ dl.2)
  else (fs, fr.2)

/-- The inner loop over a brand's models (line 340). -/
def runModels (env : Env) (brandName : String) :
    List CarModel → FileSys → FileSys × List Event
  | [], fs => (fs, [])
  | m :: ms, fs =>
    let r := processModel env brandName m fs
    let rest := runModels env brandName ms r.1
    (rest.1, r.2 ++ rest.2)

/-- The outer loop over the catalog's brands (line 339). -/
def runBrands (env : Env) : List CarBrand → FileSys → FileSys × List Event
  | [], fs => (fs, [])
  | b :: bs, fs =>
    let r := runModels env b.brand b.models fs
    let rest := runBrands env bs r.1
    (rest.1, r.2 ++ rest.2)

/-- The whole script run (lines 301–346): create `image_dir`
(`os.makedirs(image_dir, exist_ok=True)`), then iterate the catalog. -/
def runScript (env : Env) (db : List CarBrand) (fs : FileSys) :
    FileSys × List Event :=
  let r := runBrands env db fs
  (r.1, Event.mkdir image_dir :: r.2)

/-- The events emitted while processing one model, which do not depend on the
filesystem state at that point. -/
def modelEvents (env : Env) (brandName : String) (m : CarModel) : List Event :=
  (processModel env brandName m emptyFs).2

/-- The static catalog `car_database` (lines 6–299), transcribed verbatim:
each brand with its ordered model list (name, releaseYear, image path). -/
def car_database : List CarBrand := [
        ⟨"Toyota",
         [
            ⟨"Corolla", 1966, "src/assets/car_images/toyota_corolla.jpg"⟩,
            ⟨"Camry", 1982, "src/assets/car_images/toyota_camry.jpg"⟩,
            ⟨"Prius", 1997, "src/assets/car_images/toyota_prius.jpg"⟩,
            ⟨"RAV4", 1994, "src/assets/car_images/toyota_rav4.jpg"⟩,
            ⟨"Highlander", 2000, "src/assets/car_images/toyota_highlander.jpg"⟩,
            ⟨"Land Cruiser", 1951, "src/assets/car_images/toyota_land_cruiser.jpg"⟩,
            ⟨"Supra", 1978, "src/assets/car_images/toyota_supra.jpg"⟩,
            ⟨"Yaris", 1999, "src/assets/car_images/toyota_yaris.jpg"⟩
  ]⟩,
        ⟨"Ford",
         [
            ⟨"F-150", 1948, "src/assets/car_images/ford_f150.jpg"⟩,
            ⟨"Mustang", 1964, "src/assets/car_images/ford_mustang.jpg"⟩,
            ⟨"Explorer", 1990, "src/assets/car_images/ford_explorer.jpg"⟩,
            ⟨"Focus", 1998, "src/assets/car_images/ford_focus.jpg"⟩,
            ⟨"Escape", 2000, "src/assets/car_images/ford_escape.jpg"⟩,
            ⟨"Bronco", 1966, "src/assets/car_images/ford_bronco.jpg"⟩,
            ⟨"Ranger", 1983, "src/assets/car_images/ford_ranger.jpg"⟩,
            ⟨"Fiesta", 1976, "src/assets/car_images/ford_fiesta.jpg"⟩
  ]⟩,
        ⟨"Honda",
         [
            ⟨"Civic", 1972, "src/assets/car_images/honda_civic.jpg"⟩,
            ⟨"Accord", 1976, "src/assets/car_images/honda_accord.jpg"⟩,
            ⟨"CR-V", 1995, "src/assets/car_images/honda_crv.jpg"⟩,
            ⟨"Pilot", 2002, "src/assets/car_images/honda_pilot.jpg"⟩,
            ⟨"Fit", 2001, "src/assets/car_images/honda_fit.jpg"⟩,
            ⟨"Odyssey", 1994, "src/assets/car_images/honda_odyssey.jpg"⟩,
            ⟨"HR-V", 1998, "src/assets/car_images/honda_hrv.jpg"⟩,
            ⟨"Ridgeline", 2005, "src/assets/car_images/honda_ridgeline.jpg"⟩
  ]⟩,
        ⟨"Chevrolet",
         [
            ⟨"Silverado", 1998, "src/assets/car_images/chevrolet_silverado.jpg"⟩,
            ⟨"Malibu", 1964, "src/assets/car_images/chevrolet_malibu.jpg"⟩,
            ⟨"Equinox", 2004, "src/assets/car_images/chevrolet_equinox.jpg"⟩,
            ⟨"Tahoe", 1995, "src/assets/car_images/chevrolet_tahoe.jpg"⟩,
            ⟨"Impala", 1958, "src/assets/car_images/chevrolet_impala.jpg"⟩,
            ⟨"Camaro", 1966, "src/assets/car_images/chevrolet_camaro.jpg"⟩,
            ⟨"Suburban", 1935, "src/assets/car_images/chevrolet_suburban.jpg"⟩,
            ⟨"Blazer", 1969, "src/assets/car_images/chevrolet_blazer.jpg"⟩
  ]⟩,
        ⟨"BMW",
         [
            ⟨"3 Series", 1975, "src/assets/car_images/bmw_3_series.jpg"⟩,
            ⟨"5 Series", 1972, "src/assets/car_images/bmw_5_series.jpg"⟩,
            ⟨"X5", 1999, "src/assets/car_images/bmw_x5.jpg"⟩,
            ⟨"X3", 2003, "src/assets/car_images/bmw_x3.jpg"⟩,
            ⟨"7 Series", 1977, "src/assets/car_images/bmw_7_series.jpg"⟩,
            ⟨"1 Series", 2004, "src/assets/car_images/bmw_1_series.jpg"⟩,
            ⟨"Z4", 2002, "src/assets/car_images/bmw_z4.jpg"⟩,
            ⟨"i3", 2013, "src/assets/car_images/bmw_i3.jpg"⟩
  ]⟩,
        ⟨"Mercedes-Benz",
         [
            ⟨"C-Class", 1993, "src/assets/car_images/mercedes_benz_c_class.jpg"⟩,
            ⟨"E-Class", 1953, "src/assets/car_images/mercedes_benz_e_class.jpg"⟩,
            ⟨"S-Class", 1972, "src/assets/car_images/mercedes_benz_s_class.jpg"⟩,
            ⟨"GLC", 2015, "src/assets/car_images/mercedes_benz_glc.jpg"⟩,
            ⟨"GLE", 1997, "src/assets/car_images/mercedes_benz_gle.jpg"⟩,
            ⟨"A-Class", 1997, "src/assets/car_images/mercedes_benz_a_class.jpg"⟩,
            ⟨"CLA", 2013, "src/assets/car_images/mercedes_benz_cla.jpg"⟩,
            ⟨"G-Class", 1979, "src/assets/car_images/mercedes_benz_g_class.jpg"⟩
  ]⟩,
        ⟨"Audi",
         [
            ⟨"A4", 1994, "src/assets/car_images/audi_a4.jpg"⟩,
            ⟨"A6", 1994, "src/assets/car_images/audi_a6.jpg"⟩,
            ⟨"Q5", 2008, "src/assets/car_images/audi_q5.jpg"⟩,
            ⟨"Q7", 2005, "src/assets/car_images/audi_q7.jpg"⟩,
            ⟨"A3", 1996, "src/assets/car_images/audi_a3.jpg"⟩,
            ⟨"TT", 1998, "src/assets/car_images/audi_tt.jpg"⟩,
            ⟨"R8", 2006, "src/assets/car_images/audi_r8.jpg"⟩,
            ⟨"Q3", 2011, "src/assets/car_images/audi_q3.jpg"⟩
  ]⟩,
        ⟨"Nissan",
         [
            ⟨"Altima", 1992, "src/assets/car_images/nissan_altima.jpg"⟩,
            ⟨"Sentra", 1982, "src/assets/car_images/nissan_sentra.jpg"⟩,
            ⟨"Rogue", 2007, "src/assets/car_images/nissan_rogue.jpg"⟩,
            ⟨"Pathfinder", 1985, "src/assets/car_images/nissan_pathfinder.jpg"⟩,
            ⟨"Leaf", 2010, "src/assets/car_images/nissan_leaf.jpg"⟩,
            ⟨"370Z", 2009, "src/assets/car_images/nissan_370z.jpg"⟩,
            ⟨"GT-R", 2007, "src/assets/car_images/nissan_gtr.jpg"⟩,
            ⟨"Murano", 2002, "src/assets/car_images/nissan_murano.jpg"⟩
  ]⟩,
        ⟨"Hyundai",
         [
            ⟨"Elantra", 1990, "src/assets/car_images/hyundai_elantra.jpg"⟩,
            ⟨"Sonata", 1985, "src/assets/car_images/hyundai_sonata.jpg"⟩,
            ⟨"Tucson", 2004, "src/assets/car_images/hyundai_tucson.jpg"⟩,
            ⟨"Santa Fe", 2000, "src/assets/car_images/hyundai_santa_fe.jpg"⟩,
            ⟨"Kona", 2017, "src/assets/car_images/hyundai_kona.jpg"⟩,
            ⟨"Veloster", 2011, "src/assets/car_images/hyundai_veloster.jpg"⟩,
            ⟨"Palisade", 2018, "src/assets/car_images/hyundai_palisade.jpg"⟩,
            ⟨"Ioniq", 2016, "src/assets/car_images/hyundai_ioniq.jpg"⟩
  ]⟩,
        ⟨"Volkswagen",
         [
            ⟨"Golf", 1974, "src/assets/car_images/volkswagen_golf.jpg"⟩,
            ⟨"Passat", 1973, "src/assets/car_images/volkswagen_passat.jpg"⟩,
            ⟨"Tiguan", 2007, "src/assets/car_images/volkswagen_tiguan.jpg"⟩,
            ⟨"Jetta", 1979, "src/assets/car_images/volkswagen_jetta.jpg"⟩,
            ⟨"Atlas", 2017, "src/assets/car_images/volkswagen_atlas.jpg"⟩,
            ⟨"Beetle", 1938, "src/assets/car_images/volkswagen_beetle.jpg"⟩,
            ⟨"Touareg", 2002, "src/assets/car_images/volkswagen_touareg.jpg"⟩,
            ⟨"ID.4", 2020, "src/assets/car_images/volkswagen_id4.jpg"⟩
  ]⟩,
        ⟨"Tesla",
         [
            ⟨"Model S", 2012, "src/assets/car_images/tesla_model_s.jpg"⟩,
            ⟨"Model 3", 2017, "src/assets/car_images/tesla_model_3.jpg"⟩,
            ⟨"Model X", 2015, "src/assets/car_images/tesla_model_x.jpg"⟩,
            ⟨"Model Y", 2020, "src/assets/car_images/tesla_model_y.jpg"⟩,
            ⟨"Cybertruck", 2021, "src/assets/car_images/tesla_cybertruck.jpg"⟩,
            ⟨"Roadster", 2008, "src/assets/car_images/tesla_roadster.jpg"⟩
  ]⟩,
        ⟨"Subaru",
         [
            ⟨"Outback", 1994, "src/assets/car_images/subaru_outback.jpg"⟩,
            ⟨"Forester", 1997, "src/assets/car_images/subaru_forester.jpg"⟩,
            ⟨"Impreza", 1992, "src/assets/car_images/subaru_impreza.jpg"⟩,
            ⟨"Crosstrek", 2012, "src/assets/car_images/subaru_crosstrek.jpg"⟩,
            ⟨"Ascent", 2018, "src/assets/car_images/subaru_ascent.jpg"⟩,
            ⟨"BRZ", 2012, "src/assets/car_images/subaru_brz.jpg"⟩,
            ⟨"Legacy", 1989, "src/assets/car_images/subaru_legacy.jpg"⟩
  ]⟩,
        ⟨"Mazda",
         [
            ⟨"Mazda3", 2003, "src/assets/car_images/mazda_mazda3.jpg"⟩,
            ⟨"Mazda6", 2002, "src/assets/car_images/mazda_mazda6.jpg"⟩,
            ⟨"CX-5", 2012, "src/assets/car_images/mazda_cx5.jpg"⟩,
            ⟨"CX-9", 2006, "src/assets/car_images/mazda_cx9.jpg"⟩,
            ⟨"MX-5 Miata", 1989, "src/assets/car_images/mazda_mx5_miata.jpg"⟩,
            ⟨"CX-30", 2019, "src/assets/car_images/mazda_cx30.jpg"⟩,
            ⟨"RX-8", 2003, "src/assets/car_images/mazda_rx8.jpg"⟩
  ]⟩,
        ⟨"Kia",
         [
            ⟨"Soul", 2008, "src/assets/car_images/kia_soul.jpg"⟩,
            ⟨"Sportage", 1993, "src/assets/car_images/kia_sportage.jpg"⟩,
            ⟨"Sorento", 2002, "src/assets/car_images/kia_sorento.jpg"⟩,
            ⟨"Optima", 2000, "src/assets/car_images/kia_optima.jpg"⟩,
            ⟨"Telluride", 2019, "src/assets/car_images/kia_telluride.jpg"⟩,
            ⟨"Stinger", 2017, "src/assets/car_images/kia_stinger.jpg"⟩,
            ⟨"Seltos", 2019, "src/assets/car_images/kia_seltos.jpg"⟩
  ]⟩,
        ⟨"Jeep",
         [
            ⟨"Wrangler", 1986, "src/assets/car_images/jeep_wrangler.jpg"⟩,
            ⟨"Cherokee", 1974, "src/assets/car_images/jeep_cherokee.jpg"⟩,
            ⟨"Grand Cherokee", 1992, "src/assets/car_images/jeep_grand_cherokee.jpg"⟩,
            ⟨"Compass", 2006, "src/assets/car_images/jeep_compass.jpg"⟩,
            ⟨"Renegade", 2014, "src/assets/car_images/jeep_renegade.jpg"⟩,
            ⟨"Gladiator", 2019, "src/assets/car_images/jeep_gladiator.jpg"⟩
  ]⟩,
        ⟨"Porsche",
         [
            ⟨"911", 1964, "src/assets/car_images/porsche_911.jpg"⟩,
            ⟨"Cayenne", 2002, "src/assets/car_images/porsche_cayenne.jpg"⟩,
            ⟨"Macan", 2014, "src/assets/car_images/porsche_macan.jpg"⟩,
            ⟨"Panamera", 2009, "src/assets/car_images/porsche_panamera.jpg"⟩,
            ⟨"Taycan", 2019, "src/assets/car_images/porsche_taycan.jpg"⟩,
            ⟨"Boxster", 1996, "src/assets/car_images/porsche_boxster.jpg"⟩
  ]⟩,
        ⟨"Lexus",
         [
            ⟨"RX", 1998, "src/assets/car_images/lexus_rx.jpg"⟩,
            ⟨"ES", 1989, "src/assets/car_images/lexus_es.jpg"⟩,
            ⟨"NX", 2014, "src/assets/car_images/lexus_nx.jpg"⟩,
            ⟨"GX", 2002, "src/assets/car_images/lexus_gx.jpg"⟩,
            ⟨"LS", 1989, "src/assets/car_images/lexus_ls.jpg"⟩,
            ⟨"IS", 1999, "src/assets/car_images/lexus_is.jpg"⟩
  ]⟩,
        ⟨"Volvo",
         [
            ⟨"XC90", 2002, "src/assets/car_images/volvo_xc90.jpg"⟩,
            ⟨"XC60", 2008, "src/assets/car_images/volvo_xc60.jpg"⟩,
            ⟨"S60", 2000, "src/assets/car_images/volvo_s60.jpg"⟩,
            ⟨"V60", 2010, "src/assets/car_images/volvo_v60.jpg"⟩,
            ⟨"XC40", 2017, "src/assets/car_images/volvo_xc40.jpg"⟩,
            ⟨"C40", 2021, "src/assets/car_images/volvo_c40.jpg"⟩
  ]⟩,
        ⟨"Jaguar",
         [
            ⟨"XF", 2007, "src/assets/car_images/jaguar_xf.jpg"⟩,
            ⟨"XE", 2015, "src/assets/car_images/jaguar_xe.jpg"⟩,
            ⟨"F-Pace", 2016, "src/assets/car_images/jaguar_f_pace.jpg"⟩,
            ⟨"E-Pace", 2017, "src/assets/car_images/jaguar_e_pace.jpg"⟩,
            ⟨"I-Pace", 2018, "src/assets/car_images/jaguar_i_pace.jpg"⟩,
            ⟨"XJ", 1968, "src/assets/car_images/jaguar_xj.jpg"⟩
  ]⟩,
        ⟨"Peugeot",
         [
            ⟨"208", 2012, "src/assets/car_images/peugeot_208.jpg"⟩,
            ⟨"308", 2007, "src/assets/car_images/peugeot_308.jpg"⟩,
            ⟨"508", 2010, "src/assets/car_images/peugeot_508.jpg"⟩,
            ⟨"2008", 2013, "src/assets/car_images/peugeot_2008.jpg"⟩,
            ⟨"3008", 2008, "src/assets/car_images/peugeot_3008.jpg"⟩,
            ⟨"5008", 2009, "src/assets/car_images/peugeot_5008.jpg"⟩,
            ⟨"Rifter", 2018, "src/assets/car_images/peugeot_rifter.jpg"⟩
  ]⟩,
        ⟨"Fiat",
         [
            ⟨"500", 1957, "src/assets/car_images/fiat_500.jpg"⟩,
            ⟨"Panda", 1980, "src/assets/car_images/fiat_panda.jpg"⟩,
            ⟨"Tipo", 1988, "src/assets/car_images/fiat_tipo.jpg"⟩,
            ⟨"Punto", 1993, "src/assets/car_images/fiat_punto.jpg"⟩,
            ⟨"Doblo", 2000, "src/assets/car_images/fiat_doblo.jpg"⟩,
            ⟨"Toro", 2016, "src/assets/car_images/fiat_toro.jpg"⟩,
            ⟨"Strada", 1996, "src/assets/car_images/fiat_strada.jpg"⟩
  ]⟩,
        ⟨"Renault",
         [
            ⟨"Clio", 1990, "src/assets/car_images/renault_clio.jpg"⟩,
            ⟨"Megane", 1995, "src/assets/car_images/renault_megane.jpg"⟩,
            ⟨"Captur", 2013, "src/assets/car_images/renault_captur.jpg"⟩,
            ⟨"Kadjar", 2015, "src/assets/car_images/renault_kadjar.jpg"⟩,
            ⟨"Twingo", 1992, "src/assets/car_images/renault_twingo.jpg"⟩,
            ⟨"Scenic", 1996, "src/assets/car_images/renault_scenic.jpg"⟩,
            ⟨"Koleos", 2007, "src/assets/car_images/renault_koleos.jpg"⟩
  ]⟩,
        ⟨"Alfa Romeo",
         [
            ⟨"Giulia", 2015, "src/assets/car_images/alfa_romeo_giulia.jpg"⟩,
            ⟨"Stelvio", 2016, "src/assets/car_images/alfa_romeo_stelvio.jpg"⟩,
            ⟨"Tonale", 2022, "src/assets/car_images/alfa_romeo_tonale.jpg"⟩,
            ⟨"4C", 2013, "src/assets/car_images/alfa_romeo_4c.jpg"⟩,
            ⟨"MiTo", 2008, "src/assets/car_images/alfa_romeo_mito.jpg"⟩,
            ⟨"159", 2005, "src/assets/car_images/alfa_romeo_159.jpg"⟩,
            ⟨"Brera", 2005, "src/assets/car_images/alfa_romeo_brera.jpg"⟩
  ]⟩,
        ⟨"Citroën",
         [
            ⟨"C3", 2002, "src/assets/car_images/citroen_c3.jpg"⟩,
            ⟨"C4", 2004, "src/assets/car_images/citroen_c4.jpg"⟩,
            ⟨"C5", 2001, "src/assets/car_images/citroen_c5.jpg"⟩,
            ⟨"Berlingo", 1996, "src/assets/car_images/citroen_berlingo.jpg"⟩,
            ⟨"Cactus", 2014, "src/assets/car_images/citroen_cactus.jpg"⟩,
            ⟨"DS3", 2009, "src/assets/car_images/citroen_ds3.jpg"⟩,
            ⟨"Ami", 2020, "src/assets/car_images/citroen_ami.jpg"⟩
  ]⟩
]

/-- All image paths of the catalog, in processing order. -/
def allImagePaths : List String :=
  car_database.flatMap (fun b => b.models.map (fun m => m.image))

/-- A path lies under the asset root: its first 22 characters are
`image_dir ++ "/" = "src/assets/car_images/"`. -/
def underAssetRoot (p : String) : Bool :=
  p.data.take (image_dir ++ "/").data.length == (image_dir ++ "/").data

/-- An injection of the catalog paths into `Nat`, used to decide uniqueness
cheaply (`Nodup` of the mapped list implies `Nodup` of the paths). -/
def strKey (s : String) : Nat :=
  s.data.foldl (fun a c => a * 256 + c.toNat) 0

/-- `sub` occurs as a contiguous substring of `l`. -/
def hasSub (sub : List Char) : List Char → Bool
  | [] => sub.isEmpty
  | c :: rest => sub.isPrefixOf (c :: rest) || hasSub sub rest

/-! ## Helper lemmas -/

theorem foldl_append_eq_flatten (cs : List (List Nat)) (acc : List Nat) :
    cs.foldl (fun a c => a ++ c) acc = acc ++ cs.flatten := by
  induction cs generalizing acc with
  | nil => simp
  | cons c cs ih => simp [List.foldl_cons, ih, List.append_assoc]

theorem iterContent_flatten_aux (n : Nat) :
    ∀ l : List Nat, l.length ≤ n → (iterContent l).flatten = l := by
  induction n with
  | zero =>
    intro l hl
    have h : l = [] := List.eq_nil_of_length_eq_zero (Nat.le_zero.mp hl)
    subst h; simp [iterContent]
  | succ n ih =>
    intro l hl
    by_cases h : l = []
    · subst h; simp [iterContent]
    · have hpos : 0 < l.length := List.length_pos.mpr h
      rw [iterContent, dif_neg h, List.flatten_cons, ih _ ?_,
        List.take_append_drop]
      simp only [List.length_drop]
      omega

theorem iterContent_flatten (l : List Nat) : (iterContent l).flatten = l :=
  iterContent_flatten_aux l.length l le_rfl

theorem iterContent_chunk_le_aux (n : Nat) :
    ∀ l : List Nat, l.length ≤ n → ∀ c ∈ iterContent l, c.length ≤ 1024 := by
  induction n with
  | zero =>
    intro l hl
    have h : l = [] := List.eq_nil_of_length_eq_zero (Nat.le_zero.mp hl)
    subst h; simp [iterContent]
  | succ n ih =>
    intro l hl
    by_cases h : l = []
    · subst h; simp [iterContent]
    · have hpos : 0 < l.length := List.length_pos.mpr h
      rw [iterContent, dif_neg h]
      intro c hc
      rcases List.mem_cons.mp hc with hc | hc
      · subst hc
        simp only [List.length_take]
        omega
      · refine ih _ ?_ c hc
        simp only [List.length_drop]
        omega

theorem iterContent_chunk_le (l : List Nat) :
    ∀ c ∈ iterContent l, c.length ≤ 1024 :=
  iterContent_chunk_le_aux l.length l le_rfl

theorem iterContent_eq_nil_iff (l : List Nat) : iterContent l = [] ↔ l = [] := by
  constructor
  · intro h
    by_contra hne
    rw [iterContent, dif_neg hne] at h
    exact List.cons_ne_nil _ _ h
  · intro h; subst h; simp [iterContent]

theorem iterContent_dropLast_chunk_aux (n : Nat) :
    ∀ l : List Nat, l.length ≤ n →
      ∀ c ∈ (iterContent l).dropLast, c.length = 1024 := by
  induction n with
  | zero =>
    intro l hl
    have h : l = [] := List.eq_nil_of_length_eq_zero (Nat.le_zero.mp hl)
    subst h; simp [iterContent]
  | succ n ih =>
    intro l hl
    by_cases h : l = []
    · subst h; simp [iterContent]
    · have hpos : 0 < l.length := List.length_pos.mpr h
      rw [iterContent, dif_neg h]
      by_cases hd : l.drop 1024 = []
      · rw [(iterContent_eq_nil_iff _).mpr hd]
        simp
      · have hlen : 1024 < l.length := by
          by_contra hle
          exact hd (List.drop_eq_nil_iff.mpr (by omega))
        intro c hc
        rw [List.dropLast_cons_of_ne_nil
          ((not_iff_not.mpr (iterContent_eq_nil_iff _)).mpr hd)] at hc
        rcases List.mem_cons.mp hc with hc | hc
        · subst hc
          simp only [List.length_take]
          omega
        · refine ih _ ?_ c hc
          simp only [List.length_drop]
          omega

theorem iterContent_dropLast_chunk (l : List Nat) :
    ∀ c ∈ (iterContent l).dropLast, c.length = 1024 :=
  iterContent_dropLast_chunk_aux l.length l le_rfl

/-- The events emitted by `download_image` do not depend on the filesystem
state. -/
theorem download_image_snd (url path : String) (env : Env) (fs fs' : FileSys) :
    (download_image url path env fs).2 = (download_image url path env fs').2 := by
  unfold download_image
  rcases henv : env.image url with e | ⟨st, body⟩
  · rfl
  · by_cases hst : st = 200
    · subst hst
      simp only [if_pos rfl]
      rcases hfs : env.fsErr path with _ | e <;> rfl
    · simp only [if_neg hst]

/-- The events emitted by one main-loop iteration do not depend on the
filesystem state. -/
theorem processModel_snd (env : Env) (bn : String) (m : CarModel)
    (fs : FileSys) : (processModel env bn m fs).2 = modelEvents env bn m := by
  simp only [processModel, modelEvents]
  by_cases h : pyTruthy (fetch_image_url bn m.name SERPAPI_KEY env).1
  · simp only [if_pos h]
    rw [download_image_snd _ _ _ fs emptyFs]
  · simp only [if_neg h]

theorem runModels_snd (env : Env) (bn : String) (ms : List CarModel)
    (fs : FileSys) :
    (runModels env bn ms fs).2 = ms.flatMap (fun m => modelEvents env bn m) := by
  induction ms generalizing fs with
  | nil => rfl
  | cons m ms ih =>
    simp only [runModels, List.flatMap_cons, processModel_snd, ih]

theorem runBrands_snd (env : Env) (db : List CarBrand) (fs : FileSys) :
    (runBrands env db fs).2 =
      db.flatMap (fun b => b.models.flatMap (fun m => modelEvents env b.brand m)) := by
  induction db generalizing fs with
  | nil => rfl
  | cons b bs ih =>
    simp only [runBrands, List.flatMap_cons, runModels_snd, ih]

/-! ## Release-year scrubbing (noninterference infrastructure) -/

/-- Replace a model's release year by `0`, keeping name and image path. -/
def scrubModel (m : CarModel) : CarModel := ⟨m.name, 0, m.image⟩

/-- Scrub the release years of a brand's models. -/
def scrubBrand (b : CarBrand) : CarBrand := ⟨b.brand, b.models.map scrubModel⟩

/-- Scrub all release years of a catalog.  Two catalogs are identical except
for release years exactly when their scrubbed forms are equal. -/
def scrubYears (db : List CarBrand) : List CarBrand := db.map scrubBrand

theorem processModel_scrub (env : Env) (bn : String) (m : CarModel)
    (fs : FileSys) :
    processModel env bn (scrubModel m) fs = processModel env bn m fs := rfl

theorem runModels_scrub (env : Env) (bn : String) (ms : List CarModel)
    (fs : FileSys) :
    runModels env bn (ms.map scrubModel) fs = runModels env bn ms fs := by
  induction ms generalizing fs with
  | nil => rfl
  | cons m ms ih =>
    simp only [List.map_cons, runModels, processModel_scrub, ih]

theorem runBrands_scrub (env : Env) (db : List CarBrand) (fs : FileSys) :
    runBrands env (scrubYears db) fs = runBrands env db fs := by
  induction db generalizing fs with
  | nil => rfl
  | cons b bs ih =>
    simp only [scrubYears, List.map_cons, runBrands, scrubBrand, runModels_scrub]
    simp only [scrubYears] at ih
    rw [ih]

theorem runScript_scrub (env : Env) (db : List CarBrand) (fs : FileSys) :
    runScript env (scrubYears db) fs = runScript env db fs := by
  simp only [runScript, runBrands_scrub]

/-! ## Concrete environments and catalogs for witnesses/counterexamples -/

/-- A search response: status 200 with one result whose `thumbnail` is `u`. -/
def okSearch (u : String) : SearchResp :=
  .ok (200, .ok ⟨some [⟨some u⟩]⟩)

/-- Environment for the C1 counterexample: the Toyota Corolla search returns
one result with no `thumbnail` key; the Ford F-150 search returns a thumbnail
whose download then fails with status 404. -/
def envC1 : Env where
  search u :=
    if u = queryUrl "Toyota" "Corolla" SERPAPI_KEY then
      .ok (200, .ok ⟨some [⟨none⟩]⟩)
    else if u = queryUrl "Ford" "F-150" SERPAPI_KEY then
      okSearch "http://img/f150.jpg"
    else .error "unexpected request"
  image _ := .ok (404, [])
  fsErr _ := none

/-- Two-entry catalog for the C1 counterexample. -/
def dbC1 : List CarBrand :=
  [⟨"Toyota", [⟨"Corolla", 1966, "src/assets/car_images/toyota_corolla.jpg"⟩]⟩,
   ⟨"Ford", [⟨"F-150", 1948, "src/assets/car_images/ford_f150.jpg"⟩]⟩]

/-- Environment whose download GET always answers 404 with an empty body. -/
def envC3 : Env where
  search _ := .error "unused"
  image _ := .ok (404, [])
  fsErr _ := none

/-- A filesystem holding a pre-existing file `pre.jpg` with bytes `[7, 7]`. -/
def fsPre : FileSys := fun p => if p = "pre.jpg" then some [7, 7] else none

/-- Environment whose search GET always answers 500. -/
def envC4 : Env where
  search _ := .ok (500, .ok ⟨some []⟩)
  image _ := .error "unused"
  fsErr _ := none

/-- Environment whose search GET always answers 200 with one thumbnail. -/
def envC5 : Env where
  search _ := okSearch "http://img/c5.jpg"
  image _ := .error "unused"
  fsErr _ := none

/-- Environment whose download GET answers 200 with body `[1, 2, 3]`. -/
def envC6 : Env where
  search _ := .error "unused"
  image _ := .ok (200, [1, 2, 3])
  fsErr _ := none

/-- Environment whose search GET answers 200 with an empty `images_results`. -/
def envC7 : Env where
  search _ := .ok (200, .ok ⟨some []⟩)
  image _ := .error "should never be called"
  fsErr _ := none

/-- Environment for the C9 witness: every search fails with status 500. -/
def envC9 : Env where
  search _ := .ok (500, .ok ⟨none⟩)
  image _ := .error "unused"
  fsErr _ := none

/-- One-entry catalog, release year 1966. -/
def dbYearA : List CarBrand :=
  [⟨"Toyota", [⟨"Corolla", 1966, "src/assets/car_images/toyota_corolla.jpg"⟩]⟩]

/-- The same catalog as `dbYearA` except the release year is 2024. -/
def dbYearB : List CarBrand :=
  [⟨"Toyota", [⟨"Corolla", 2024, "src/assets/car_images/toyota_corolla.jpg"⟩]⟩]

/-- Environment whose search GET answers 200 with a single result whose
`thumbnail` is the empty string. -/
def envC10 : Env where
  search _ := .ok (200, .ok ⟨some [⟨some ""⟩]⟩)
  image _ := .error "should never be called"
  fsErr _ := none

/-- A sample model entry used by several witnesses. -/
def mCorolla : CarModel :=
  ⟨"Corolla", 1966, "src/assets/car_images/toyota_corolla.jpg"⟩

/-! ## Claims -/

/-- C2: No per-item failure terminates the batch.  For every environment
(including ones whose requests raise exceptions or fail), every catalog and
every starting filesystem, the run's trace is the directory creation followed
by the per-entry event segments of *every* catalog entry, brand by brand and
model by model, in order — the run always reaches the last entry. -/
theorem run_trace_covers_all_entries (env : Env) (db : List CarBrand)
    (fs : FileSys) :
    (runScript env db fs).2 =
      .mkdir image_dir ::
        db.flatMap (fun b => b.models.flatMap (fun m => modelEvents env b.brand m)) := by
  simp only [runScript, runBrands_snd]

/-- C3: When the download GET returns a status other than 200,
`download_image` prints `Failed to download {url}: {status}` (both the URL
and the status code) and returns the filesystem unchanged: no file is created
or modified. -/
theorem download_non200_reports_and_preserves_fs (url path : String)
    (env : Env) (fs : FileSys) (st : Nat) (body : List Nat)
    (h : env.image url = .ok (st, body)) (hst : st ≠ 200) :
    download_image url path env fs =
      (fs, [.print s!"Failed to download {url}: {st}"]) := by
  unfold download_image
  rw [h]
  simp only [if_neg hst]

/-- Witness for C3: a 404 download against a pre-existing file `pre.jpg`
holding bytes `[7, 7]` reports the URL and status and leaves the file
byte-for-byte unchanged. -/
theorem download_non200_reports_and_preserves_fs_witness :
    download_image "http://img/a.jpg" "pre.jpg" envC3 fsPre =
      (fsPre, [.print "Failed to download http://img/a.jpg: 404"]) ∧
    fsPre "pre.jpg" = some [7, 7] :=
  ⟨download_non200_reports_and_preserves_fs "http://img/a.jpg" "pre.jpg"
      envC3 fsPre 404 [] rfl (by decide), rfl⟩

/-- C4 (amended): when the search GET returns a status other than 200,
`fetch_image_url` prints `No image found for {brand} {model}` — referencing
brand and model but *not* the status code — and returns no URL. -/
theorem fetch_non200_reports_not_found (b m k : String) (env : Env)
    (st : Nat) (p : Except String SearchData)
    (h : env.search (queryUrl b m k) = .ok (st, p)) (hst : st ≠ 200) :
    fetch_image_url b m k env =
      (none, [.print s!"No image found for {b} {m}"]) := by
  unfold fetch_image_url
  dsimp only
  rw [h]
  simp only [if_neg hst]

/-- Witness for the amended C4: a 500 search for "Toyota Corolla" yields no
URL and the not-found line. -/
theorem fetch_non200_reports_not_found_witness :
    fetch_image_url "Toyota" "Corolla" SERPAPI_KEY envC4 =
      (none, [.print "No image found for Toyota Corolla"]) :=
  fetch_non200_reports_not_found "Toyota" "Corolla" SERPAPI_KEY envC4 500
    (.ok ⟨some []⟩) rfl (by decide)

/-- Counterexample to C4 as stated: on a 500 search response the emitted line
is exactly `No image found for Toyota Corolla`, and the status code `500` does
not occur in it — the status code is not reported. -/
theorem fetch_non200_omits_status_cex :
    fetch_image_url "Toyota" "Corolla" SERPAPI_KEY envC4 =
      (none, [.print "No image found for Toyota Corolla"]) ∧
    hasSub "500".data "No image found for Toyota Corolla".data = false := by
  constructor
  · rfl
  · decide

/-- C5: `fetch_image_url` issues its GET at exactly the URL obtained by
joining brand and model with one space as the `q` parameter, with
`engine=google_images`, `ijn=0` and the API key, with no escaping (the URL is
plain string concatenation, so the behaviour depends only on the oracle's
answer at that one URL); and on a 200 response with non-empty
`images_results` it returns the first entry's `thumbnail` value, printing
nothing. -/
theorem fetch_query_url_and_first_thumbnail (b m k : String) (env : Env)
    (d : SearchData) (r : ImageResult) (rs : List ImageResult)
    (h : env.search (queryUrl b m k) = .ok (200, .ok d))
    (hres : d.images_results.getD [] = r :: rs) :
    queryUrl b m k =
      "https://serpapi.com/search.json?q=" ++ b ++ " " ++ m ++
        "&engine=google_images&ijn=0&api_key=" ++ k ∧
    (∀ env' : Env,
      env'.search (queryUrl b m k) = env.search (queryUrl b m k) →
      fetch_image_url b m k env' = fetch_image_url b m k env) ∧
    fetch_image_url b m k env = (r.thumbnail, []) := by
  refine ⟨?_, ?_, ?_⟩
  · simp only [queryUrl, String.append_assoc]
  · intro env' hagree
    unfold fetch_image_url
    dsimp only
    rw [hagree]
  · unfold fetch_image_url
    dsimp only
    rw [h]
    simp [hres]

/-- Witness for C5: a concrete 200 response with one result returns that
result's thumbnail and prints nothing. -/
theorem fetch_query_url_and_first_thumbnail_witness :
    fetch_image_url "Toyota" "Corolla" SERPAPI_KEY envC5 =
      (some "http://img/c5.jpg", []) :=
  (fetch_query_url_and_first_thumbnail "Toyota" "Corolla" SERPAPI_KEY envC5
    ⟨some [⟨some "http://img/c5.jpg"⟩]⟩ ⟨some "http://img/c5.jpg"⟩ []
    rfl rfl).2.2

/-- C6: on a 200 download response, `download_image` truncates/creates the
destination and writes exactly the response body — assembled from
`iter_content(1024)` chunks, each of length at most 1024 and all but the last
exactly 1024, whose concatenation is the body — and prints
`Downloaded: {path}`; the resulting file's contents equal the response body
and no other path changes. -/
theorem download_200_writes_body_in_chunks (url path : String) (env : Env)
    (fs : FileSys) (body : List Nat)
    (h : env.image url = .ok (200, body)) (hfs : env.fsErr path = none) :
    download_image url path env fs =
      (fun p => if p = path then some body else fs p,
       [.write path body, .print s!"Downloaded: {path}"]) ∧
    (∀ c ∈ iterContent body, c.length ≤ 1024) ∧
    (∀ c ∈ (iterContent body).dropLast, c.length = 1024) ∧
    (iterContent body).flatten = body := by
  have hbody : (iterContent body).foldl (fun a c => a ++ c) [] = body := by
    rw [foldl_append_eq_flatten, List.nil_append, iterContent_flatten]
  refine ⟨?_, iterContent_chunk_le body, iterContent_dropLast_chunk body,
    iterContent_flatten body⟩
  unfold download_image
  rw [h]
  simp [hfs, hbody]

/-- Witness for C6: downloading body `[1, 2, 3]` to `out.jpg` writes exactly
those bytes there and reports success with the path. -/
theorem download_200_writes_body_in_chunks_witness :
    download_image "http://img/b.jpg" "out.jpg" envC6 emptyFs =
      (fun p => if p = "out.jpg" then some [1, 2, 3] else emptyFs p,
       [.write "out.jpg" [1, 2, 3], .print "Downloaded: out.jpg"]) :=
  (download_200_writes_body_in_chunks "http://img/b.jpg" "out.jpg" envC6
    emptyFs [1, 2, 3] rfl rfl).1

/-- C7: on a 200 search response whose `images_results` is empty (or absent,
since `.get("images_results", [])` defaults to `[]`), `fetch_image_url`
returns no URL with the not-found line, and the main-loop iteration for that
entry performs no download: the filesystem is unchanged and the only event is
the not-found print — `download_image` is never invoked. -/
theorem empty_results_skips_download (env : Env) (bn : String) (m : CarModel)
    (fs : FileSys) (d : SearchData)
    (h : env.search (queryUrl bn m.name SERPAPI_KEY) = .ok (200, .ok d))
    (hempty : d.images_results.getD [] = []) :
    fetch_image_url bn m.name SERPAPI_KEY env =
      (none, [.print s!"No image found for {bn} {m.name}"]) ∧
    processModel env bn m fs =
      (fs, [.print s!"No image found for {bn} {m.name}"]) := by
  have hf : fetch_image_url bn m.name SERPAPI_KEY env =
      (none, [.print s!"No image found for {bn} {m.name}"]) := by
    unfold fetch_image_url
    dsimp only
    rw [h]
    simp [hempty]
  refine ⟨hf, ?_⟩
  unfold processModel
  rw [hf]
  rfl

/-- Witness for C7: with an always-empty search result, processing the
Corolla entry leaves the filesystem unchanged and prints only the not-found
line. -/
theorem empty_results_skips_download_witness :
    processModel envC7 "Toyota" mCorolla emptyFs =
      (emptyFs, [.print "No image found for Toyota Corolla"]) :=
  (empty_results_skips_download envC7 "Toyota" mCorolla emptyFs ⟨some []⟩
    rfl rfl).2

set_option maxRecDepth 10000 in
/-- C8: every image path of the static catalog is unique across the whole
catalog, every image path lies under the single asset root
`src/assets/car_images` (equal to `image_dir`, with a `/` separator), and the
script's first action — before any write — is creating exactly that
directory. -/
theorem catalog_paths_unique_under_asset_root :
    allImagePaths.Nodup ∧
    allImagePaths.all underAssetRoot = true ∧
    ∀ (env : Env) (fs : FileSys),
      (runScript env car_database fs).2.head? = some (.mkdir image_dir) := by
  refine ⟨List.Nodup.of_map strKey ?_, ?_, fun env fs => rfl⟩
  · decide
  · decide

/-- C9: release years never influence behaviour.  For any two catalogs whose
release-year-scrubbed forms coincide (i.e. they are identical except for the
`releaseYear` values), the run performs exactly the same file writes and
emits exactly the same trace of queries, downloads and status lines, in every
environment and from every starting filesystem. -/
theorem releaseYear_noninterference (env : Env) (db1 db2 : List CarBrand)
    (fs : FileSys) (h : scrubYears db1 = scrubYears db2) :
    runScript env db1 fs = runScript env db2 fs := by
  rw [← runScript_scrub env db1 fs, ← runScript_scrub env db2 fs, h]

/-- Witness for C9: two one-entry catalogs differing only in the release year
(1966 vs 2024) produce identical runs. -/
theorem releaseYear_noninterference_witness :
    runScript envC9 dbYearA emptyFs = runScript envC9 dbYearB emptyFs :=
  releaseYear_noninterference envC9 dbYearA dbYearB emptyFs rfl

/-- C10: the main loop gates the download on Python truthiness of the
resolved URL, not mere presence: when the first search result's `thumbnail`
is the empty string, `fetch_image_url` returns `Some ""`, yet the iteration
performs no download — the filesystem is unchanged and no event at all is
emitted, exactly as for `None`. -/
theorem empty_thumbnail_skips_download (env : Env) (bn : String)
    (m : CarModel) (fs : FileSys) (d : SearchData) (r : ImageResult)
    (rs : List ImageResult)
    (h : env.search (queryUrl bn m.name SERPAPI_KEY) = .ok (200, .ok d))
    (hres : d.images_results.getD [] = r :: rs)
    (hthumb : r.thumbnail = some "") :
    fetch_image_url bn m.name SERPAPI_KEY env = (some "", []) ∧
    processModel env bn m fs = (fs, []) := by
  have hf : fetch_image_url bn m.name SERPAPI_KEY env = (some "", []) := by
    unfold fetch_image_url
    dsimp only
    rw [h]
    simp [hres, hthumb]
  refine ⟨hf, ?_⟩
  unfold processModel
  rw [hf]
  rfl

/-- Witness for C10: with a single result whose thumbnail is `""`, processing
the Corolla entry leaves the filesystem unchanged and emits nothing. -/
theorem empty_thumbnail_skips_download_witness :
    processModel envC10 "Toyota" mCorolla emptyFs = (emptyFs, []) :=
  (empty_thumbnail_skips_download envC10 "Toyota" mCorolla emptyFs
    ⟨some [⟨some ""⟩]⟩ ⟨some ""⟩ [] rfl rfl rfl).2

/-- Exhaustive case analysis of `fetch_image_url`: it either reports an
exception, reports not-found, or returns the first result's thumbnail with no
output. -/
theorem fetch_image_url_cases (b m k : String) (env : Env) :
    (∃ e : String, fetch_image_url b m k env =
        (none, [.print s!"Error fetching image URL for {b} {m}: {e}"])) ∨
    (fetch_image_url b m k env =
        (none, [.print s!"No image found for {b} {m}"])) ∨
    (∃ (d : SearchData) (r : ImageResult) (rs : List ImageResult),
      env.search (queryUrl b m k) = .ok (200, .ok d) ∧
      d.images_results.getD [] = r :: rs ∧
      fetch_image_url b m k env = (r.thumbnail, [])) := by
  cases hs : env.search (queryUrl b m k) with
  | error e =>
    exact .inl ⟨e, by unfold fetch_image_url; dsimp only; rw [hs]⟩
  | ok pr =>
    obtain ⟨st, parsed⟩ := pr
    by_cases hst : st = 200
    · subst hst
      cases parsed with
      | error e =>
        refine .inl ⟨e, ?_⟩
        unfold fetch_image_url; dsimp only; rw [hs]; simp
      | ok d =>
        cases hres : d.images_results.getD [] with
        | nil =>
          refine .inr (.inl ?_)
          unfold fetch_image_url; dsimp only; rw [hs]; simp [hres]
        | cons r rs =>
          refine .inr (.inr ⟨d, r, rs, rfl, hres, ?_⟩)
          unfold fetch_image_url; dsimp only; rw [hs]; simp [hres]
    · refine .inr (.inl ?_)
      unfold fetch_image_url; dsimp only; rw [hs]; simp [hst]

/-- Exhaustive case analysis of `download_image`: it either reports an
exception (leaving the filesystem unchanged), reports a non-200 status with
URL and status code (unchanged filesystem), or writes the downloaded bytes to
the destination and reports success. -/
theorem download_image_cases (url path : String) (env : Env) (fs : FileSys) :
    (∃ e : String, download_image url path env fs =
        (fs, [.print s!"Error downloading {url}: {e}"])) ∨
    (∃ st : Nat, st ≠ 200 ∧ download_image url path env fs =
        (fs, [.print s!"Failed to download {url}: {st}"])) ∨
    (∃ c : List Nat, download_image url path env fs =
        (fun p => if p = path then some c else fs p,
         [.write path c, .print s!"Downloaded: {path}"])) := by
  cases hi : env.image url with
  | error e =>
    exact .inl ⟨e, by unfold download_image; rw [hi]⟩
  | ok pr =>
    obtain ⟨st, body⟩ := pr
    by_cases hst : st = 200
    · subst hst
      cases hw : env.fsErr path with
      | some e =>
        refine .inl ⟨e, ?_⟩
        unfold download_image; rw [hi]; simp [hw]
      | none =>
        refine .inr (.inr ⟨(iterContent body).foldl (fun a c => a ++ c) [], ?_⟩)
        unfold download_image; rw [hi]; simp [hw]
    · refine .inr (.inl ⟨st, hst, ?_⟩)
      unfold download_image; rw [hi]; simp [hst]

/-- C1 (amended): for every catalog entry processed in a run, one of the
following holds of that iteration's events: the image file at the entry's
configured path is written (with the success line naming the path); an error
or not-found line referencing the entry's brand and model is printed (search
stage); a failure line referencing the failing download URL — and, for a
non-200 status, the status code — is printed (download stage); or the search
succeeded with HTTP 200 and a non-empty `images_results` whose first result
has no truthy `thumbnail`, in which case the entry's outcome is silent: no
event at all is emitted. -/
theorem entry_outcome_reported_or_silent_thumbnail (env : Env) (bn : String)
    (m : CarModel) (fs : FileSys) :
    (∃ c : List Nat, (processModel env bn m fs).2 =
        [.write m.image c, .print s!"Downloaded: {m.image}"]) ∨
    (∃ e : String, (processModel env bn m fs).2 =
        [.print s!"Error fetching image URL for {bn} {m.name}: {e}"]) ∨
    ((processModel env bn m fs).2 =
        [.print s!"No image found for {bn} {m.name}"]) ∨
    (∃ (u : String) (st : Nat), st ≠ 200 ∧ (processModel env bn m fs).2 =
        [.print s!"Failed to download {u}: {st}"]) ∨
    (∃ u e : String, (processModel env bn m fs).2 =
        [.print s!"Error downloading {u}: {e}"]) ∨
    (∃ (d : SearchData) (r : ImageResult) (rs : List ImageResult),
      env.search (queryUrl bn m.name SERPAPI_KEY) = .ok (200, .ok d) ∧
      d.images_results.getD [] = r :: rs ∧
      pyTruthy r.thumbnail = false ∧
      (processModel env bn m fs).2 = []) := by
  rcases fetch_image_url_cases bn m.name SERPAPI_KEY env with
    ⟨e, hf⟩ | hf | ⟨d, r, rs, hs, hres, hf⟩
  · refine .inr (.inl ⟨e, ?_⟩)
    unfold processModel
    rw [hf]
    rfl
  · refine .inr (.inr (.inl ?_))
    unfold processModel
    rw [hf]
    rfl
  · by_cases ht : pyTruthy r.thumbnail
    · have hp : processModel env bn m fs =
          ((download_image (r.thumbnail.getD "") m.image env fs).1,
           (download_image (r.thumbnail.getD "") m.image env fs).2) := by
        unfold processModel
        rw [hf]
        simp [ht]
      rcases download_image_cases (r.thumbnail.getD "") m.image env fs with
        ⟨e, hd⟩ | ⟨st, hst, hd⟩ | ⟨c, hd⟩
      · refine .inr (.inr (.inr (.inr (.inl ⟨r.thumbnail.getD "", e, ?_⟩))))
        rw [hp, hd]
      · refine .inr (.inr (.inr (.inl ⟨r.thumbnail.getD "", st, hst, ?_⟩)))
        rw [hp, hd]
      · refine .inl ⟨c, ?_⟩
        rw [hp, hd]
    · refine .inr (.inr (.inr (.inr (.inr
        ⟨d, r, rs, hs, hres, Bool.not_eq_true _ ▸ eq_false_of_ne_true ht, ?_⟩))))
      unfold processModel
      rw [hf]
      simp [ht]

/-- Counterexample to C1 as stated: in a run over a two-entry catalog where
the Toyota Corolla search succeeds with HTTP 200 and a non-empty
`images_results` whose first result has no `thumbnail` field, and the Ford
F-150 thumbnail download fails with status 404, neither configured image file
is written, the Corolla entry produces no output at all, and the only
failure line names the URL and status but neither brand nor model. -/
theorem entry_outcome_silent_cex :
    (runScript envC1 dbC1 emptyFs).2 =
      [.mkdir image_dir,
       .print "Failed to download http://img/f150.jpg: 404"] ∧
    (runScript envC1 dbC1 emptyFs).1
      "src/assets/car_images/toyota_corolla.jpg" = none ∧
    (runScript envC1 dbC1 emptyFs).1
      "src/assets/car_images/ford_f150.jpg" = none ∧
    hasSub "Corolla".data "Failed to download http://img/f150.jpg: 404".data
      = false ∧
    hasSub "F-150".data "Failed to download http://img/f150.jpg: 404".data
      = false := by
  refine ⟨?_, rfl, rfl, by decide, by decide⟩
  rfl

end DownloadImages
